import Mathlib

/-!
# Verification of the SIP-reminder composite-scoring and allocation core

Shallow embedding of the core services of the repository:

* `CSSService` (src/src/services/cssScoring.ts, v4.3 revision): the
  threshold-table indicator scores, the MA50 slope adjustment, the composite
  score (CSS), the CSS→multiplier mapping and the market-wide CSS;
* `PortfolioAllocationEngine` (src/unnamed/part_001 =
  src/src/services/portfolioAllocation.ts): per-asset allocation with the
  NaN guard, min/max clamping and rounding, the drop-on-failure pipeline and
  report aggregation;
* `FearGreedService` (src/src/services/database.ts, fearGreedIndex section):
  the never-throwing sentiment fetch with its success flag;
* `MarketDataService.getSimulatedData` / `getSimulatedHistoricalData` /
  `hashSymbol` (src/src/services/marketData.ts): the synthetic data tier.

JavaScript numbers are idealized as exact rationals extended with the three
IEEE special values `NaN`, `+∞` and `-∞` (type `JNum`); finite arithmetic is
exact (no binary rounding), while the propagation rules for the special
values follow ECMAScript semantics, which is what the verified claims are
about.  Real-time values (`new Date()` timestamps) and console logging are
omitted from the records; `Math.random()` is modelled as an explicit stream
of draws passed to the function that consumes it.
-/

/-- A JavaScript number, idealized: `NaN`, the two infinities, or an exact
rational. -/
inductive JNum where
  | nan : JNum
  | pinf : JNum
  | ninf : JNum
  | fin : ℚ → JNum
deriving DecidableEq, Repr

namespace JNum

/-- `isNaN` from JS. -/
def isNaN : JNum → Bool
  | nan => true
  | _ => false

/-- The JS `<=` comparison: any comparison with `NaN` is false. -/
def jle : JNum → JNum → Bool
  | nan, _ => false
  | _, nan => false
  | ninf, _ => true
  | _, pinf => true
  | pinf, ninf => false
  | pinf, fin _ => false
  | fin _, ninf => false
  | fin a, fin b => decide (a ≤ b)

/-- The JS `<` comparison: any comparison with `NaN` is false. -/
def jlt : JNum → JNum → Bool
  | nan, _ => false
  | _, nan => false
  | ninf, ninf => false
  | ninf, _ => true
  | _, pinf => false
  | pinf, _ => false
  | fin _, ninf => false
  | fin a, fin b => decide (a < b)

/-- JS addition on idealized numbers (`∞ + (-∞) = NaN`). -/
def jadd : JNum → JNum → JNum
  | nan, _ => nan
  | _, nan => nan
  | pinf, ninf => nan
  | ninf, pinf => nan
  | pinf, _ => pinf
  | _, pinf => pinf
  | ninf, _ => ninf
  | _, ninf => ninf
  | fin a, fin b => fin (a + b)

/-- JS subtraction on idealized numbers. -/
def jsub : JNum → JNum → JNum
  | nan, _ => nan
  | _, nan => nan
  | pinf, pinf => nan
  | ninf, ninf => nan
  | pinf, _ => pinf
  | ninf, _ => ninf
  | _, pinf => ninf
  | _, ninf => pinf
  | fin a, fin b => fin (a - b)

/-- JS multiplication on idealized numbers (`∞ × 0 = NaN`). -/
def jmul : JNum → JNum → JNum
  | nan, _ => nan
  | _, nan => nan
  | pinf, pinf => pinf
  | pinf, ninf => ninf
  | ninf, pinf => ninf
  | ninf, ninf => pinf
  | pinf, fin b => if b = 0 then nan else if 0 < b then pinf else ninf
  | ninf, fin b => if b = 0 then nan else if 0 < b then ninf else pinf
  | fin a, pinf => if a = 0 then nan else if 0 < a then pinf else ninf
  | fin a, ninf => if a = 0 then nan else if 0 < a then ninf else pinf
  | fin a, fin b => fin (a * b)

/-- JS division on idealized numbers.  Division of a nonzero finite number by
zero gives a signed infinity; `0/0`, `∞/∞` give `NaN`. -/
def jdiv : JNum → JNum → JNum
  | nan, _ => nan
  | _, nan => nan
  | pinf, pinf => nan
  | pinf, ninf => nan
  | ninf, pinf => nan
  | ninf, ninf => nan
  | pinf, fin b => if 0 ≤ b then pinf else ninf
  | ninf, fin b => if 0 ≤ b then ninf else pinf
  | fin _, pinf => fin 0
  | fin _, ninf => fin 0
  | fin a, fin b =>
    if b = 0 then (if a = 0 then nan else if 0 < a then pinf else ninf)
    else fin (a / b)

/-- JS `Math.max` of two numbers: `NaN` if either argument is `NaN`. -/
def jmax : JNum → JNum → JNum
  | nan, _ => nan
  | _, nan => nan
  | pinf, _ => pinf
  | _, pinf => pinf
  | ninf, b => b
  | a, ninf => a
  | fin a, fin b => fin (max a b)

/-- JS `Math.min` of two numbers: `NaN` if either argument is `NaN`. -/
def jmin : JNum → JNum → JNum
  | nan, _ => nan
  | _, nan => nan
  | ninf, _ => ninf
  | _, ninf => ninf
  | pinf, b => b
  | a, pinf => a
  | fin a, fin b => fin (min a b)

/-- JS `Math.round`: round half toward `+∞`, i.e. `⌊x + 1/2⌋` on finite
values; the special values map to themselves. -/
def jround : JNum → JNum
  | nan => nan
  | pinf => pinf
  | ninf => ninf
  | fin a => fin (⌊a + 1/2⌋ : ℤ)

end JNum

open JNum

/-- One row of a threshold table: an upper bound (possibly `+∞`, as in the
source tables) paired with the score returned when the input is `≤` it. -/
structure ThresholdRow where
  bound : JNum
  score : ℚ
deriving DecidableEq, Repr

/-- The shared scan of the threshold tables: return the score of the first
row whose upper bound the input is `<=` (JS comparison, so a `NaN` input
falls through every row), else the function's documented terminal value.
This is the loop shape of `calculateVIXScore`, `calculateRSIScore`,
`calculateBBWidthScore`, `calculateMA50Score`, `calculateFearGreedScore`
and `cssToMultiplier` in src/src/services/cssScoring.ts. -/
def scanThresholds (table : List ThresholdRow) (terminal : ℚ) (x : JNum) : ℚ :=
  match table with
  | [] => terminal
  | row :: rest => if jle x row.bound then row.score else scanThresholds rest terminal x

/-! ### Threshold tables (src/src/utils/multiplierThresholds.ts) -/

/-- `VIX_SCORE_THRESHOLDS`. -/
def VIX_SCORE_THRESHOLDS : List ThresholdRow :=
  [⟨fin 15, 20⟩, ⟨fin 20, 40⟩, ⟨fin 25, 60⟩, ⟨fin 30, 75⟩, ⟨fin 40, 90⟩, ⟨pinf, 100⟩]

/-- `RSI_SCORE_THRESHOLDS`. -/
def RSI_SCORE_THRESHOLDS : List ThresholdRow :=
  [⟨fin 30, 100⟩, ⟨fin 40, 80⟩, ⟨fin 50, 60⟩, ⟨fin 60, 40⟩, ⟨fin 70, 20⟩, ⟨pinf, 0⟩]

/-- `BB_WIDTH_SCORE_THRESHOLDS`. -/
def BB_WIDTH_SCORE_THRESHOLDS : List ThresholdRow :=
  [⟨fin 5, 30⟩, ⟨fin 10, 50⟩, ⟨fin 15, 70⟩, ⟨pinf, 90⟩]

/-- `MA50_SCORE_THRESHOLDS`. -/
def MA50_SCORE_THRESHOLDS : List ThresholdRow :=
  [⟨fin (-10), 90⟩, ⟨fin (-5), 70⟩, ⟨fin 5, 50⟩, ⟨fin 10, 30⟩, ⟨pinf, 10⟩]

/-- `FEAR_GREED_SCORE_THRESHOLDS`. -/
def FEAR_GREED_SCORE_THRESHOLDS : List ThresholdRow :=
  [⟨fin 25, 100⟩, ⟨fin 45, 75⟩, ⟨fin 55, 50⟩, ⟨fin 75, 25⟩, ⟨fin 100, 0⟩]

/-- `CSS_TO_MULTIPLIER`. -/
def CSS_TO_MULTIPLIER : List ThresholdRow :=
  [⟨fin 20, 1/2⟩, ⟨fin 35, 3/5⟩, ⟨fin 50, 4/5⟩, ⟨fin 60, 1⟩, ⟨fin 75, 6/5⟩, ⟨fin 100, 6/5⟩]

/-- `BUDGET_CONSTRAINTS`. -/
structure BudgetConstraints where
  MIN_MULTIPLIER : ℚ
  MAX_MULTIPLIER : ℚ
  BASE_BUDGET : ℚ
  MIN_BUDGET : ℚ
  MAX_BUDGET : ℚ

/-- `BUDGET_CONSTRAINTS` values. -/
def BUDGET_CONSTRAINTS : BudgetConstraints :=
  { MIN_MULTIPLIER := 1/2, MAX_MULTIPLIER := 6/5, BASE_BUDGET := 250
    MIN_BUDGET := 125, MAX_BUDGET := 300 }

/-- The five CSS indicator weights. -/
structure CssWeights where
  VIX : ℚ
  RSI : ℚ
  BB_WIDTH : ℚ
  MA50 : ℚ
  FEAR_GREED : ℚ
deriving DecidableEq, Repr

/-- `CSS_WEIGHTS` (v4.3 primary weights). -/
def CSS_WEIGHTS : CssWeights :=
  { VIX := 20/100, RSI := 30/100, BB_WIDTH := 15/100, MA50 := 20/100, FEAR_GREED := 15/100 }

/-- `CSS_WEIGHTS_FG_FALLBACK` (used when the Fear & Greed fetch failed). -/
def CSS_WEIGHTS_FG_FALLBACK : CssWeights :=
  { VIX := 275/1000, RSI := 375/1000, BB_WIDTH := 15/100, MA50 := 20/100, FEAR_GREED := 0 }

/-- `MA50_SLOPE_CONFIG` (v4.3 slope-filter configuration). -/
structure Ma50SlopeConfig where
  STRONG_UPTREND : ℚ
  MODERATE_UPTREND : ℚ
  FLAT_THRESHOLD : ℚ
  MODERATE_DOWNTREND : ℚ
  BONUS_STRONG_UP : ℚ
  BONUS_MODERATE_UP : ℚ
  BONUS_FLAT : ℚ
  BONUS_MODERATE_DOWN : ℚ
  BONUS_STRONG_DOWN : ℚ
  APPLY_WHEN_DISCOUNT_BELOW : ℚ
  MIN_SCORE : ℚ
  MAX_SCORE : ℚ

/-- `MA50_SLOPE_CONFIG` values. -/
def MA50_SLOPE_CONFIG : Ma50SlopeConfig :=
  { STRONG_UPTREND := 10/1000, MODERATE_UPTREND := 3/1000
    FLAT_THRESHOLD := -3/1000, MODERATE_DOWNTREND := -10/1000
    BONUS_STRONG_UP := 15, BONUS_MODERATE_UP := 8, BONUS_FLAT := 0
    BONUS_MODERATE_DOWN := -8, BONUS_STRONG_DOWN := -15
    APPLY_WHEN_DISCOUNT_BELOW := -10, MIN_SCORE := 20, MAX_SCORE := 90 }

/-! ### CSSService scoring functions (src/src/services/cssScoring.ts) -/

namespace CSSService

/-- `calculateVIXScore`: scan of `VIX_SCORE_THRESHOLDS`, terminal 100. -/
def calculateVIXScore (vix : JNum) : ℚ :=
  scanThresholds VIX_SCORE_THRESHOLDS 100 vix

/-- `calculateRSIScore`: scan of `RSI_SCORE_THRESHOLDS`, terminal 0. -/
def calculateRSIScore (rsi : JNum) : ℚ :=
  scanThresholds RSI_SCORE_THRESHOLDS 0 rsi

/-- `calculateBBWidthScore`: scan of `BB_WIDTH_SCORE_THRESHOLDS`, terminal 90. -/
def calculateBBWidthScore (bbWidth : JNum) : ℚ :=
  scanThresholds BB_WIDTH_SCORE_THRESHOLDS 90 bbWidth

/-- `calculateMA50Score`: scan of `MA50_SCORE_THRESHOLDS`, terminal 10. -/
def calculateMA50Score (priceVsMA50Percent : JNum) : ℚ :=
  scanThresholds MA50_SCORE_THRESHOLDS 10 priceVsMA50Percent

/-- `calculateFearGreedScore`: scan of `FEAR_GREED_SCORE_THRESHOLDS`, terminal 0. -/
def calculateFearGreedScore (fearGreedIndex : JNum) : ℚ :=
  scanThresholds FEAR_GREED_SCORE_THRESHOLDS 0 fearGreedIndex

/-- `cssToMultiplier`: scan of `CSS_TO_MULTIPLIER`, terminal
`BUDGET_CONSTRAINTS.MAX_MULTIPLIER` (= 1.2). -/
def cssToMultiplier (css : JNum) : ℚ :=
  scanThresholds CSS_TO_MULTIPLIER BUDGET_CONSTRAINTS.MAX_MULTIPLIER css

/-- `calculateMA50SlopeBonus`: bonus points from the slope thresholds.  A
`NaN` slope fails every `>` comparison and therefore falls through to the
strong-downtrend branch, exactly as in the JS `if/else` chain. -/
def calculateMA50SlopeBonus (ma50Slope : JNum) : ℚ :=
  if jlt (fin MA50_SLOPE_CONFIG.STRONG_UPTREND) ma50Slope then
    MA50_SLOPE_CONFIG.BONUS_STRONG_UP
  else if jlt (fin MA50_SLOPE_CONFIG.MODERATE_UPTREND) ma50Slope then
    MA50_SLOPE_CONFIG.BONUS_MODERATE_UP
  else if jlt (fin MA50_SLOPE_CONFIG.FLAT_THRESHOLD) ma50Slope then
    MA50_SLOPE_CONFIG.BONUS_FLAT
  else if jlt (fin MA50_SLOPE_CONFIG.MODERATE_DOWNTREND) ma50Slope then
    MA50_SLOPE_CONFIG.BONUS_MODERATE_DOWN
  else
    MA50_SLOPE_CONFIG.BONUS_STRONG_DOWN

/-- Result of `calculateMA50ScoreWithSlope`. -/
structure Ma50SlopeResult where
  baseScore : ℚ
  adjustedScore : ℚ
  slopeBonus : ℚ
deriving DecidableEq, Repr

/-- `calculateMA50ScoreWithSlope`: the slope bonus is applied only when
`priceVsMA50Percent < MA50_SLOPE_CONFIG.APPLY_WHEN_DISCOUNT_BELOW` (JS `<`,
strict), and the adjusted score is then clamped to
`[MIN_SCORE, MAX_SCORE] = [20, 90]`. -/
def calculateMA50ScoreWithSlope (priceVsMA50Percent ma50Slope : JNum) :
    Ma50SlopeResult :=
  let baseScore := calculateMA50Score priceVsMA50Percent
  if jlt priceVsMA50Percent (fin MA50_SLOPE_CONFIG.APPLY_WHEN_DISCOUNT_BELOW) then
    let slopeBonus := calculateMA50SlopeBonus ma50Slope
    let adjustedScore :=
      max MA50_SLOPE_CONFIG.MIN_SCORE
        (min MA50_SLOPE_CONFIG.MAX_SCORE (baseScore + slopeBonus))
    { baseScore := baseScore, adjustedScore := adjustedScore, slopeBonus := slopeBonus }
  else
    { baseScore := baseScore, adjustedScore := baseScore, slopeBonus := 0 }

/-- `calculateMA50Deviation`: `((price - ma50) / ma50) * 100`, with the
`ma50 === 0` guard returning 0. -/
def calculateMA50Deviation (currentPrice ma50 : JNum) : JNum :=
  if ma50 = fin 0 then fin 0
  else jmul (jdiv (jsub currentPrice ma50) ma50) (fin 100)

end CSSService

/-- JS `Math.round(x * 100) / 100` (two-decimal rounding used for reported
raw values). -/
def jround2 (x : JNum) : JNum :=
  jdiv (jround (jmul x (fin 100))) (fin 100)

/-- The fields of `TechnicalIndicators` consumed by the scoring service
(src/src/types: rsi, bbWidth, ma50, ma50Slope; ma20/atr/bollinger are not
read by `calculateCSSBreakdown`). -/
structure TechnicalIndicators where
  rsi : JNum
  bbWidth : JNum
  ma50 : JNum
  ma50Slope : JNum
deriving DecidableEq, Repr

/-- `CSSBreakdown` (src/src/types), as produced by the v4.3
`calculateCSSBreakdown`.  The `multiplier` and the scores are the exact
rational table values; `fearGreedScore` is `none` when the sentiment index
was unavailable. -/
structure CSSBreakdown where
  vixScore : ℚ
  rsiScore : ℚ
  bbWidthScore : ℚ
  ma50Score : ℚ
  ma50ScoreAdjusted : ℚ
  fearGreedScore : Option ℚ
  vixValue : JNum
  rsiValue : JNum
  bbWidthValue : JNum
  ma50DeviationPercent : JNum
  ma50Slope : JNum
  ma50SlopeBonus : ℚ
  fearGreedValue : Option JNum
  totalCSS : JNum
  multiplier : ℚ
  fearGreedFailed : Bool
  weightsAdjusted : Bool
deriving DecidableEq, Repr

namespace CSSService

/-- The `[0,100]` clamp applied to the composite before the multiplier
lookup (line `totalCSS = Math.max(0, Math.min(100, totalCSS))`), kept
on JS numbers: `Math.max`/`Math.min` return `NaN` when fed `NaN`. -/
def cssClamp (totalCSS : JNum) : JNum :=
  jmax (fin 0) (jmin (fin 100) totalCSS)

/-- `calculateCSSBreakdown` (v4.3): per-indicator scores, weight selection
on Fear & Greed availability, weighted sum with the slope-adjusted MA50
score, `[0,100]` clamp, multiplier lookup. -/
def calculateCSSBreakdown (vix : JNum) (fearGreedIndex : Option JNum)
    (technicalIndicators : TechnicalIndicators) (currentPrice : JNum) :
    CSSBreakdown :=
  let fearGreedFailed := fearGreedIndex.isNone
  let vixScore := calculateVIXScore vix
  let rsiScore := calculateRSIScore technicalIndicators.rsi
  let bbWidthScore := calculateBBWidthScore technicalIndicators.bbWidth
  let ma50Deviation := calculateMA50Deviation currentPrice technicalIndicators.ma50
  let ma50SlopeResult := calculateMA50ScoreWithSlope ma50Deviation technicalIndicators.ma50Slope
  let fearGreedScore := fearGreedIndex.map calculateFearGreedScore
  let weights := if fearGreedFailed then CSS_WEIGHTS_FG_FALLBACK else CSS_WEIGHTS
  let weightsAdjusted := fearGreedFailed
  let totalCSSRaw : ℚ :=
    vixScore * weights.VIX + rsiScore * weights.RSI +
      bbWidthScore * weights.BB_WIDTH +
      ma50SlopeResult.adjustedScore * weights.MA50 +
      (fearGreedScore.getD 0) * weights.FEAR_GREED
  let totalCSS := cssClamp (fin totalCSSRaw)
  let multiplier := cssToMultiplier totalCSS
  { vixScore := vixScore
    rsiScore := rsiScore
    bbWidthScore := bbWidthScore
    ma50Score := ma50SlopeResult.baseScore
    ma50ScoreAdjusted := ma50SlopeResult.adjustedScore
    fearGreedScore := fearGreedScore
    vixValue := vix
    rsiValue := technicalIndicators.rsi
    bbWidthValue := technicalIndicators.bbWidth
    ma50DeviationPercent := jround2 ma50Deviation
    ma50Slope := technicalIndicators.ma50Slope
    ma50SlopeBonus := ma50SlopeResult.slopeBonus
    fearGreedValue := fearGreedIndex
    totalCSS := jround2 totalCSS
    multiplier := multiplier
    fearGreedFailed := fearGreedFailed
    weightsAdjusted := weightsAdjusted }

/-- `calculateMarketCSS` (v4.3): the volatility score alone when the
sentiment index is unavailable; otherwise
`((vixScore * 0.20) + (fearGreedScore * 0.15)) / 0.35 * 100` — note the
trailing `* 100` in the source. -/
def calculateMarketCSS (vix : JNum) (fearGreedIndex : Option JNum) : ℚ :=
  let vixScore := calculateVIXScore vix
  match fearGreedIndex with
  | none => vixScore
  | some fg =>
    let fearGreedScore := calculateFearGreedScore fg
    let marketWeight := CSS_WEIGHTS.VIX + CSS_WEIGHTS.FEAR_GREED
    (vixScore * CSS_WEIGHTS.VIX + fearGreedScore * CSS_WEIGHTS.FEAR_GREED) /
      marketWeight * 100

end CSSService

/-! ### PortfolioAllocationEngine (src/unnamed/part_001) -/

/-- `BASE_ALLOCATIONS` (src/src/utils/multiplierThresholds.ts): the static
per-symbol base-percentage table. -/
def BASE_ALLOCATIONS : List (String × ℚ) :=
  [("QQQ", 25), ("GOOG", 35/2), ("AIQ", 15), ("TSLA", 15/2),
   ("XLV", 10), ("VXUS", 10), ("TLT", 15)]

namespace PortfolioAllocationEngine

/-- `getBaseAllocationPercentage`: `BASE_ALLOCATIONS[symbol]` when present
(the JS truthiness test also rejects a 0 entry), else an equal share
`100 / Object.keys(BASE_ALLOCATIONS).length`. -/
def getBaseAllocationPercentage (symbol : String) : ℚ :=
  match (BASE_ALLOCATIONS.find? (fun p => p.1 = symbol)) with
  | some p => if p.2 = 0 then 100 / BASE_ALLOCATIONS.length else p.2
  | none => 100 / BASE_ALLOCATIONS.length

/-- The part of `StockAnalysis` read by the allocation step: the symbol and
the CSS breakdown's `multiplier` and `totalCSS`.  The `multiplier` field is
a raw JS number here (the TS type is `number`), since the claims quantify
over non-finite values reaching this point. -/
structure AnalysisForAllocation where
  symbol : String
  multiplier : JNum
  totalCSS : JNum
deriving DecidableEq, Repr

/-- `PortfolioAllocation` (the fields computed by
`calculateSingleAllocation`; `reasoning` is a report string, omitted). -/
structure PortfolioAllocation where
  symbol : String
  amount : JNum
  percentage : JNum
  baseAmount : JNum
  cssScore : JNum
  multiplier : JNum
deriving DecidableEq, Repr

/-- `calculateSingleAllocation`: base share of the budget, the
`isNaN`-guarded multiplier, the proportional min/max clamp, and rounding to
a whole currency unit. -/
def calculateSingleAllocation (analysis : AnalysisForAllocation)
    (baseBudget minBudget maxBudget : ℚ) : PortfolioAllocation :=
  let basePercentage := getBaseAllocationPercentage analysis.symbol
  let baseAmount := baseBudget * basePercentage / 100
  let multiplier := if analysis.multiplier.isNaN then fin 1 else analysis.multiplier
  let finalAmountRaw := jmul (fin baseAmount) multiplier
  let minForAsset := minBudget * basePercentage / 100
  let maxForAsset := maxBudget * basePercentage / 100
  let finalAmountClamped := jmax (fin minForAsset) (jmin (fin maxForAsset) finalAmountRaw)
  let finalAmount := jround finalAmountClamped
  let finalPercentage := jmul (jdiv finalAmount (fin baseBudget)) (fin 100)
  { symbol := analysis.symbol
    amount := finalAmount
    percentage := jround2 finalPercentage
    baseAmount := jround (fin baseAmount)
    cssScore := analysis.totalCSS
    multiplier := multiplier }

/-- The comparator `(a, b) => b.amount - a.amount` of the final
`allocations.sort`: kept as the `≤`-style Boolean relation of a stable
descending sort by amount. -/
def amountGe (a b : PortfolioAllocation) : Bool :=
  jle b.amount a.amount

/-- `calculateAllocations`: allocate each analysed asset, then sort by
amount descending (JS `Array.prototype.sort` is stable; modelled by a
stable merge sort under `amountGe`). -/
def calculateAllocations (analyses : List AnalysisForAllocation)
    (baseBudget minBudget maxBudget : ℚ) : List PortfolioAllocation :=
  (analyses.map (fun a => calculateSingleAllocation a baseBudget minBudget maxBudget)).mergeSort
    amountGe

/-- `analyzeStocks`: each symbol's analysis promise resolves to its
`StockAnalysis` or — when any exception escaped the per-asset pipeline — to
`null`, and the `null`s are filtered out.  The embedding takes the resolved
outcomes as input: `none` is a failed asset. -/
def analyzeStocks (outcomes : List (Option AnalysisForAllocation)) :
    List AnalysisForAllocation :=
  (outcomes.filterMap id)

/-- The slice of `AllocationReport` built by `generateAllocation` that the
claims are about: the allocation list and `totalAmount`, the
`reduce`-computed sum of the allocations' amounts. -/
structure AllocationReport where
  totalAmount : JNum
  allocations : List PortfolioAllocation
deriving DecidableEq, Repr

/-- The allocation-and-aggregation tail of `generateAllocation`: analyse
(with per-asset failures dropped), allocate, and sum the amounts
(`allocations.reduce((sum, a) => sum + a.amount, 0)`). -/
def generateAllocationReport (outcomes : List (Option AnalysisForAllocation))
    (baseBudget minBudget maxBudget : ℚ) : AllocationReport :=
  let analyses := analyzeStocks outcomes
  let allocations := calculateAllocations analyses baseBudget minBudget maxBudget
  let totalAmount := allocations.foldl (fun sum a => jadd sum a.amount) (fin 0)
  { totalAmount := totalAmount, allocations := allocations }

end PortfolioAllocationEngine

/-! ### FearGreedService (src/src/services/database.ts, fearGreedIndex part) -/

/-- `FearGreedResponse` (src/src/types).  In TS the `value` field is typed
`number`; it is embedded as `Option ℚ` so that "value is null" is a
statable property — the code itself only ever stores `some`.  The `Date`
timestamp is real time and is omitted. -/
structure FearGreedResponse where
  value : Option ℚ
  rating : String
  success : Bool
deriving DecidableEq, Repr

/-- The response shapes that `FearGreedService.parseResponse` distinguishes:
a `fear_and_greed` object (whose `score` may fail the `typeof === 'number'`
check, modelled by `none`), an array of `{x, y}` points, a bare `score`
field, a `fear_and_greed_historical` series (each point carrying a rating
string, possibly empty), or anything else. -/
inductive CNNData where
  | fearAndGreed (score : Option ℚ)
  | points (pts : List (ℚ × ℚ))
  | scoreOnly (score : ℚ)
  | historical (pts : List (ℚ × ℚ × String))
  | unknown
deriving DecidableEq, Repr

namespace FearGreedService

/-- `getRatingFromScore`: bucket a numeric score into the rating label. -/
def getRatingFromScore (score : ℚ) : String :=
  if score ≤ 25 then "Extreme Fear"
  else if score ≤ 45 then "Fear"
  else if score ≤ 55 then "Neutral"
  else if score ≤ 75 then "Greed"
  else "Extreme Greed"

/-- JS `Math.round` on an exact rational. -/
def mathRound (q : ℚ) : ℚ := (⌊q + 1/2⌋ : ℤ)

/-- `parseResponse`: try the four known shapes in order; `none` when no
shape matches (including an empty array / empty historical series, and a
`fear_and_greed` object without a numeric `score`).  In the historical
shape the point's own rating is used unless it is falsy (empty). -/
def parseResponse : CNNData → Option (ℚ × String)
  | CNNData.fearAndGreed (some score) => some (mathRound score, getRatingFromScore score)
  | CNNData.fearAndGreed none => none
  | CNNData.points [] => none
  | CNNData.points ((_, y) :: _) => some (mathRound y, getRatingFromScore y)
  | CNNData.scoreOnly score => some (mathRound score, getRatingFromScore score)
  | CNNData.historical pts =>
    match pts.getLast? with
    | none => none
    | some (_, y, rating) =>
      some (mathRound y, if rating = "" then getRatingFromScore y else rating)
  | CNNData.unknown => none

/-- `fetchFearGreedIndex`: the whole body sits in one `try/catch`, so the
function is total over the fetch outcome (network error / timeout is
`Except.error`, a delivered payload is `Except.ok`).  A parse failure
throws inside the `try` and lands in the same `catch`; every failure path
returns the neutral-placeholder record `{value: 50, rating: 'Unknown',
success: false}`. -/
def fetchFearGreedIndex (outcome : Except Unit CNNData) : FearGreedResponse :=
  match outcome with
  | Except.error _ => { value := some 50, rating := "Unknown", success := false }
  | Except.ok data =>
    match parseResponse data with
    | some (v, r) => { value := some v, rating := r, success := true }
    | none => { value := some 50, rating := "Unknown", success := false }

end FearGreedService

/-- The caller's conversion in `generateAllocation`
(src/unnamed/part_001: `fearGreedResponse.success ? fearGreedResponse.value
: null`): the numeric value is used only when `success` is set. -/
def fearGreedIndexOfResponse (r : FearGreedResponse) : Option ℚ :=
  if r.success then r.value else none

/-! ### MarketDataService synthetic tier (src/src/services/marketData.ts) -/

namespace MarketDataService

/-- JS `ToInt32`: wrap an integer into `[-2^31, 2^31)`. -/
def toInt32 (n : ℤ) : ℤ := (n + 2 ^ 31) % 2 ^ 32 - 2 ^ 31

/-- One iteration of the `hashSymbol` loop:
`hash = ((hash << 5) - hash) + charCode; hash = hash & hash`.  The shift
truncates to 32 bits, the following arithmetic is exact (well within the
53-bit double mantissa), and `hash & hash` truncates again. -/
def hashStep (hash c : ℤ) : ℤ := toInt32 (toInt32 (hash * 32) - hash + c)

/-- `hashSymbol`: fold the hash step over the symbol's UTF-16 char codes,
then `Math.abs`. -/
def hashSymbol (charCodes : List ℤ) : ℤ :=
  |charCodes.foldl hashStep 0|

/-- The numeric fields of the quote fabricated by `getSimulatedData`
(`symbol` echoes the input, `dataSource` is the constant `'simulated'`,
and the `timestamp` is `new Date()` — real time, omitted here). -/
structure SimulatedQuote where
  price : ℚ
  previousClose : ℚ
  change : ℚ
  changePercent : ℚ
  volume : ℚ
deriving DecidableEq, Repr

/-- `getSimulatedData`: every numeric field is derived from
`seed = hashSymbol(symbol)`. -/
def getSimulatedData (charCodes : List ℤ) : SimulatedQuote :=
  let seed := hashSymbol charCodes
  let basePrice : ℚ := 100 + (seed % 400 : ℤ)
  let previousClose : ℚ := basePrice * (98/100 + ((seed % 4 : ℤ) : ℚ) / 100)
  let currentPrice := basePrice
  { price := currentPrice
    previousClose := previousClose
    change := currentPrice - previousClose
    changePercent := (currentPrice - previousClose) / previousClose * 100
    volume := ((1000000 + (seed % 9000000 : ℤ) : ℤ) : ℚ) }

/-- The loop of `getSimulatedHistoricalData`: at each day the price is
multiplied by `0.97 + Math.random() * 0.06` and pushed.  `draws i` is the
result of the `(i+1)`-st `Math.random()` call. -/
def simulatedHistoricalLoop : ℕ → ℕ → ℚ → (ℕ → ℚ) → List ℚ
  | 0, _, _, _ => []
  | d + 1, i, price, draws =>
    let price := price * (97/100 + draws i * (6/100))
    price :: simulatedHistoricalLoop d (i + 1) price draws

/-- `getSimulatedHistoricalData`: the start price is
`100 + Math.random() * 400` (draw 0) and each day consumes one further
draw.  The symbol is not a parameter — the source function takes only
`days` and fresh `Math.random()` draws. -/
def getSimulatedHistoricalData (days : ℕ) (draws : ℕ → ℚ) : List ℚ :=
  simulatedHistoricalLoop days 1 (100 + draws 0 * 400) draws

end MarketDataService

/-! ### Helper lemmas -/

open CSSService PortfolioAllocationEngine

/-- The VIX score table only emits values in `[0, 100]`. -/
lemma vixScore_bounds (v : JNum) :
    0 ≤ calculateVIXScore v ∧ calculateVIXScore v ≤ 100 := by
  simp only [calculateVIXScore, VIX_SCORE_THRESHOLDS, scanThresholds]
  split_ifs <;> norm_num

/-- The Fear & Greed score table only emits values in `[0, 100]`. -/
lemma fearGreedScore_bounds (f : JNum) :
    0 ≤ calculateFearGreedScore f ∧ calculateFearGreedScore f ≤ 100 := by
  simp only [calculateFearGreedScore, FEAR_GREED_SCORE_THRESHOLDS, scanThresholds]
  split_ifs <;> norm_num

/-- In the deep-discount zone (`d < -10` via the JS comparison) the slope
result carries the clamped adjusted score and the slope-derived bonus. -/
lemma ma50SlopeResult_pos (d s : JNum) (h : jlt d (fin (-10)) = true) :
    calculateMA50ScoreWithSlope d s =
      ⟨calculateMA50Score d,
       max 20 (min 90 (calculateMA50Score d + calculateMA50SlopeBonus s)),
       calculateMA50SlopeBonus s⟩ := by
  simp [calculateMA50ScoreWithSlope, MA50_SLOPE_CONFIG, h]

/-- Outside the deep-discount zone the slope result keeps the base score
and a zero bonus. -/
lemma ma50SlopeResult_neg (d s : JNum) (h : jlt d (fin (-10)) = false) :
    calculateMA50ScoreWithSlope d s =
      ⟨calculateMA50Score d, calculateMA50Score d, 0⟩ := by
  simp [calculateMA50ScoreWithSlope, MA50_SLOPE_CONFIG, h]

/-- Every base-allocation percentage (table entry or the equal-share
default) is positive. -/
lemma basePercentage_pos (symbol : String) :
    0 < getBaseAllocationPercentage symbol := by
  unfold getBaseAllocationPercentage
  cases h : BASE_ALLOCATIONS.find? (fun p => p.1 = symbol) with
  | none => norm_num [BASE_ALLOCATIONS]
  | some p =>
    have hp := List.mem_of_find?_eq_some h
    simp only [BASE_ALLOCATIONS, List.mem_cons, List.not_mem_nil, or_false] at hp
    rcases hp with rfl | rfl | rfl | rfl | rfl | rfl | rfl <;> norm_num

/-- `BASE_ALLOCATIONS` assigns TSLA a base share of 7.5%. -/
lemma basePercentage_TSLA : getBaseAllocationPercentage "TSLA" = 15/2 := by
  simp only [getBaseAllocationPercentage, BASE_ALLOCATIONS, List.find?,
    show decide ("QQQ" = "TSLA") = false from rfl,
    show decide ("GOOG" = "TSLA") = false from rfl,
    show decide ("AIQ" = "TSLA") = false from rfl,
    show decide ("TSLA" = "TSLA") = true from rfl]
  norm_num

/-- The `amount` field of a single allocation, written out: the rounded
clamp of `baseAmount × multiplier` (after the `isNaN` guard) to the
asset's share of the min/max budgets. -/
lemma amount_eq (a : AnalysisForAllocation) (bb mn mx : ℚ) :
    (calculateSingleAllocation a bb mn mx).amount =
      jround (jmax (fin (mn * getBaseAllocationPercentage a.symbol / 100))
        (jmin (fin (mx * getBaseAllocationPercentage a.symbol / 100))
          (jmul (fin (bb * getBaseAllocationPercentage a.symbol / 100))
            (if a.multiplier.isNaN then fin 1 else a.multiplier)))) := rfl

/-- Rounding half-up moves a value by at most `1/2` in each direction. -/
lemma round_in_interval {c lo hi : ℚ} (h1 : lo ≤ c) (h2 : c ≤ hi) :
    lo - 1/2 ≤ ((⌊c + 1/2⌋ : ℤ) : ℚ) ∧ ((⌊c + 1/2⌋ : ℤ) : ℚ) ≤ hi + 1/2 := by
  constructor
  · have h3 := Int.sub_one_lt_floor (c + 1/2)
    linarith
  · have h3 := Int.floor_le (c + 1/2)
    linarith

/-- The rounded clamp produces a finite amount within half a unit of the
clamp interval, for every multiplier (finite, infinite, or `NaN`), as long
as the base amount is positive and the interval is nonempty. -/
lemma clampRound_amount (mult : JNum) (ba mn mx : ℚ) (hba : 0 < ba) (h : mn ≤ mx) :
    ∃ q : ℚ,
      jround (jmax (fin mn) (jmin (fin mx)
        (jmul (fin ba) (if mult.isNaN then fin 1 else mult)))) = fin q ∧
      mn - 1/2 ≤ q ∧ q ≤ mx + 1/2 := by
  cases mult with
  | nan =>
    have e : jround (jmax (fin mn) (jmin (fin mx)
        (jmul (fin ba) (if JNum.isNaN nan then fin 1 else nan))))
        = fin ((⌊max mn (min mx ba) + 1/2⌋ : ℤ) : ℚ) := by
      norm_num [JNum.isNaN, jmul, jmin, jmax, jround]
    exact ⟨_, e, (round_in_interval (le_max_left _ _) (max_le h (min_le_left _ _))).1,
      (round_in_interval (le_max_left _ _) (max_le h (min_le_left _ _))).2⟩
  | pinf =>
    have e : jround (jmax (fin mn) (jmin (fin mx)
        (jmul (fin ba) (if JNum.isNaN pinf then fin 1 else pinf))))
        = fin ((⌊max mn mx + 1/2⌋ : ℤ) : ℚ) := by
      norm_num [JNum.isNaN, jmul, jmin, jmax, jround, hba.ne', hba]
    exact ⟨_, e, (round_in_interval (le_max_left mn mx) (max_le h le_rfl)).1,
      (round_in_interval (le_max_left mn mx) (max_le h le_rfl)).2⟩
  | ninf =>
    have e : jround (jmax (fin mn) (jmin (fin mx)
        (jmul (fin ba) (if JNum.isNaN ninf then fin 1 else ninf))))
        = fin ((⌊mn + 1/2⌋ : ℤ) : ℚ) := by
      norm_num [JNum.isNaN, jmul, jmin, jmax, jround, hba.ne', hba]
    exact ⟨_, e, (round_in_interval le_rfl h).1, (round_in_interval le_rfl h).2⟩
  | fin r =>
    have e : jround (jmax (fin mn) (jmin (fin mx)
        (jmul (fin ba) (if JNum.isNaN (fin r) then fin 1 else fin r))))
        = fin ((⌊max mn (min mx (ba * r)) + 1/2⌋ : ℤ) : ℚ) := by
      norm_num [JNum.isNaN, jmul, jmin, jmax, jround]
    exact ⟨_, e, (round_in_interval (le_max_left _ _) (max_le h (min_le_left _ _))).1,
      (round_in_interval (le_max_left _ _) (max_le h (min_le_left _ _))).2⟩

/-! ### Claim C1 -/

/-- **C1 (counterexample).** The claimed invariant
`minForAsset ≤ finalAmount ≤ maxForAsset` fails because the code rounds
*after* clamping: for TSLA (base share 7.5%) with the standard budgets
`baseBudget = 250`, `minBudget = 125`, `maxBudget = 300` and the attainable
multiplier 1.2, the clamped raw amount is exactly `maxForAsset = 22.5`,
which `Math.round` turns into 23 > 22.5. -/
theorem C1_counterexample_round_exceeds_max :
    (calculateSingleAllocation ⟨"TSLA", fin (6/5), fin 70⟩ 250 125 300).amount
      = fin 23 ∧
    300 * getBaseAllocationPercentage "TSLA" / 100 = 45/2 ∧
    ¬ ((23 : ℚ) ≤ 45/2) := by
  refine ⟨?_, by rw [basePercentage_TSLA]; norm_num, by norm_num⟩
  rw [amount_eq]
  simp only [basePercentage_TSLA]
  norm_num [jmul, jmin, jmax, jround, JNum.isNaN]

/-- **C1 (amended).** For every asset allocation produced by the allocation
engine — any symbol, any multiplier (finite, infinite or `NaN`), any
positive base budget and any budgets with `minBudget ≤ maxBudget` — the
returned amount is a finite value within half a currency unit of the claim's
interval: `minForAsset − 1/2 ≤ finalAmount ≤ maxForAsset + 1/2`, where
`minForAsset = minBudget × basePercentage/100` and
`maxForAsset = maxBudget × basePercentage/100`.  (The unrounded clamped
amount does lie in `[minForAsset, maxForAsset]`; only the final rounding can
leave it, by at most 1/2.) -/
theorem C1_final_amount_within_half_of_bounds (m : JNum) (symbol : String)
    (css : JNum) (baseBudget minBudget maxBudget : ℚ)
    (hb : 0 < baseBudget) (hmm : minBudget ≤ maxBudget) :
    ∃ q : ℚ,
      (calculateSingleAllocation ⟨symbol, m, css⟩ baseBudget minBudget maxBudget).amount
        = fin q ∧
      minBudget * getBaseAllocationPercentage symbol / 100 - 1/2 ≤ q ∧
      q ≤ maxBudget * getBaseAllocationPercentage symbol / 100 + 1/2 := by
  have hp := basePercentage_pos symbol
  have hba : 0 < baseBudget * getBaseAllocationPercentage symbol / 100 := by positivity
  have h : minBudget * getBaseAllocationPercentage symbol / 100
      ≤ maxBudget * getBaseAllocationPercentage symbol / 100 := by
    have := mul_le_mul_of_nonneg_right hmm hp.le
    linarith
  simp only [amount_eq]
  exact clampRound_amount m _ _ _ hba h

/-- Witness for C1 (amended): GOOG with an infinite multiplier and the
standard budgets. -/
theorem C1_final_amount_within_half_of_bounds_witness :
    (0 : ℚ) < 250 ∧ (125 : ℚ) ≤ 300 ∧
    ∃ q : ℚ,
      (calculateSingleAllocation ⟨"GOOG", pinf, fin 70⟩ 250 125 300).amount = fin q ∧
      125 * getBaseAllocationPercentage "GOOG" / 100 - 1/2 ≤ q ∧
      q ≤ 300 * getBaseAllocationPercentage "GOOG" / 100 + 1/2 :=
  ⟨by norm_num, by norm_num,
    C1_final_amount_within_half_of_bounds pinf "GOOG" (fin 70) 250 125 300
      (by norm_num) (by norm_num)⟩

/-! ### Claim C2 -/

/-- **C2.** Round-trip check of the composite score engine: with volatility
index 20, RSI 45, Bollinger width 8, MA50 deviation 0 (price 100 on MA50
100), sentiment 50, the per-indicator scores are 40, 60, 50, 50 (MA50, both
base and adjusted), 50, the composite is exactly 51 and the multiplier 1.0;
and with the same inputs but sentiment unavailable (`null`), the fallback
weights 0.275/0.375/0.15/0.20 also give composite exactly 51 and
multiplier 1.0. -/
theorem C2_composite_round_trip :
    (calculateCSSBreakdown (fin 20) (some (fin 50))
        ⟨fin 45, fin 8, fin 100, fin 0⟩ (fin 100)).vixScore = 40 ∧
    (calculateCSSBreakdown (fin 20) (some (fin 50))
        ⟨fin 45, fin 8, fin 100, fin 0⟩ (fin 100)).rsiScore = 60 ∧
    (calculateCSSBreakdown (fin 20) (some (fin 50))
        ⟨fin 45, fin 8, fin 100, fin 0⟩ (fin 100)).bbWidthScore = 50 ∧
    (calculateCSSBreakdown (fin 20) (some (fin 50))
        ⟨fin 45, fin 8, fin 100, fin 0⟩ (fin 100)).ma50Score = 50 ∧
    (calculateCSSBreakdown (fin 20) (some (fin 50))
        ⟨fin 45, fin 8, fin 100, fin 0⟩ (fin 100)).ma50ScoreAdjusted = 50 ∧
    (calculateCSSBreakdown (fin 20) (some (fin 50))
        ⟨fin 45, fin 8, fin 100, fin 0⟩ (fin 100)).fearGreedScore = some 50 ∧
    (calculateCSSBreakdown (fin 20) (some (fin 50))
        ⟨fin 45, fin 8, fin 100, fin 0⟩ (fin 100)).totalCSS = fin 51 ∧
    (calculateCSSBreakdown (fin 20) (some (fin 50))
        ⟨fin 45, fin 8, fin 100, fin 0⟩ (fin 100)).multiplier = 1 ∧
    (calculateCSSBreakdown (fin 20) none
        ⟨fin 45, fin 8, fin 100, fin 0⟩ (fin 100)).totalCSS = fin 51 ∧
    (calculateCSSBreakdown (fin 20) none
        ⟨fin 45, fin 8, fin 100, fin 0⟩ (fin 100)).multiplier = 1 := by
  norm_num [calculateCSSBreakdown, calculateVIXScore, calculateRSIScore,
    calculateBBWidthScore, calculateMA50Score, calculateFearGreedScore,
    calculateMA50Deviation, calculateMA50ScoreWithSlope, calculateMA50SlopeBonus,
    cssToMultiplier, cssClamp, scanThresholds, jround2, jround, jmul, jdiv, jsub,
    jmax, jmin, jle, jlt, VIX_SCORE_THRESHOLDS, RSI_SCORE_THRESHOLDS,
    BB_WIDTH_SCORE_THRESHOLDS, MA50_SCORE_THRESHOLDS, FEAR_GREED_SCORE_THRESHOLDS,
    CSS_TO_MULTIPLIER, CSS_WEIGHTS, CSS_WEIGHTS_FG_FALLBACK, MA50_SLOPE_CONFIG,
    BUDGET_CONSTRAINTS]

/-! ### Claim C3 -/

/-- **C3 (counterexample).** At MA50 deviation exactly −10 — inside the
claim's `d ≤ −10` zone — with strong-downtrend slope −0.02,
`calculateMA50ScoreWithSlope` applies no bonus: it returns `slopeBonus = 0`
and keeps the base score 90, although the slope-derived bonus for that
slope is −15.  The gate in the source is the strict
`priceVsMA50Percent < -10`. -/
theorem C3_counterexample_boundary_minus_ten :
    (calculateMA50ScoreWithSlope (fin (-10)) (fin (-1/50))).slopeBonus = 0 ∧
    (calculateMA50ScoreWithSlope (fin (-10)) (fin (-1/50))).adjustedScore = 90 ∧
    (calculateMA50ScoreWithSlope (fin (-10)) (fin (-1/50))).baseScore = 90 ∧
    calculateMA50SlopeBonus (fin (-1/50)) = -15 ∧ (0 : ℚ) ≠ -15 := by
  rw [ma50SlopeResult_neg _ _ (by norm_num [jlt])]
  refine ⟨rfl, ?_, ?_, ?_, by norm_num⟩ <;>
    norm_num [calculateMA50Score, MA50_SCORE_THRESHOLDS, scanThresholds, jle,
      calculateMA50SlopeBonus, MA50_SLOPE_CONFIG, jlt]

/-- **C3 (amended).** The MA50 slope bonus is applied exactly when the
deviation is *strictly* below −10 (JS `<`): whenever `d < −10` fails — in
particular at `d = −10` and for every `d > −10` — the returned `slopeBonus`
is 0 and the adjusted score equals the base score, for every slope; and
whenever `d < −10` holds, the slope-derived bonus is applied. -/
theorem C3_slope_gate_strict (d s : JNum) :
    (jlt d (fin (-10)) = false →
      (calculateMA50ScoreWithSlope d s).slopeBonus = 0 ∧
      (calculateMA50ScoreWithSlope d s).adjustedScore
        = (calculateMA50ScoreWithSlope d s).baseScore) ∧
    (jlt d (fin (-10)) = true →
      (calculateMA50ScoreWithSlope d s).slopeBonus = calculateMA50SlopeBonus s) := by
  constructor
  · intro h
    rw [ma50SlopeResult_neg _ _ h]
    exact ⟨rfl, rfl⟩
  · intro h
    rw [ma50SlopeResult_pos _ _ h]

/-- Witness for C3 (amended): outside the zone (deviation −5) the bonus is
0 even under a strong uptrend; inside the zone (deviation −11) the
slope-derived bonus is applied. -/
theorem C3_slope_gate_strict_witness :
    (calculateMA50ScoreWithSlope (fin (-5)) (fin (3/2))).slopeBonus = 0 ∧
    (calculateMA50ScoreWithSlope (fin (-11)) (fin (3/2))).slopeBonus
      = calculateMA50SlopeBonus (fin (3/2)) :=
  ⟨((C3_slope_gate_strict (fin (-5)) (fin (3/2))).1 (by norm_num [jlt])).1,
   (C3_slope_gate_strict (fin (-11)) (fin (3/2))).2 (by norm_num [jlt])⟩

/-! ### Claim C4 -/

/-- **C4.** Whenever the slope bonus is applied (deviation strictly inside
the deep-discount zone), the adjusted MA50 score equals the base score plus
the slope bonus clamped to `[20, 90]`; in particular it is never below 20
(and never above 90), for every deviation and slope in the zone. -/
theorem C4_adjusted_score_clamped (d s : JNum)
    (h : jlt d (fin (-10)) = true) :
    (calculateMA50ScoreWithSlope d s).adjustedScore
      = max 20 (min 90 ((calculateMA50ScoreWithSlope d s).baseScore
          + (calculateMA50ScoreWithSlope d s).slopeBonus)) ∧
    20 ≤ (calculateMA50ScoreWithSlope d s).adjustedScore ∧
    (calculateMA50ScoreWithSlope d s).adjustedScore ≤ 90 := by
  rw [ma50SlopeResult_pos _ _ h]
  exact ⟨rfl, le_max_left _ _, max_le (by norm_num) (min_le_left _ _)⟩

/-- Witness for C4 at deviation −15 with strong-downtrend slope −0.02
(adjusted score `90 − 15 = 75`, within `[20, 90]`). -/
theorem C4_adjusted_score_clamped_witness :
    (calculateMA50ScoreWithSlope (fin (-15)) (fin (-1/50))).adjustedScore
      = max 20 (min 90 ((calculateMA50ScoreWithSlope (fin (-15)) (fin (-1/50))).baseScore
          + (calculateMA50ScoreWithSlope (fin (-15)) (fin (-1/50))).slopeBonus)) ∧
    20 ≤ (calculateMA50ScoreWithSlope (fin (-15)) (fin (-1/50))).adjustedScore ∧
    (calculateMA50ScoreWithSlope (fin (-15)) (fin (-1/50))).adjustedScore ≤ 90 :=
  C4_adjusted_score_clamped (fin (-15)) (fin (-1/50)) (by norm_num [jlt])

/-! ### Claim C6 -/

/-- **C6 (counterexample).** The NaN guard in `calculateSingleAllocation`
is `isNaN` only, so an *infinite* multiplier is not treated as 1.0: with
multiplier `+∞` for TSLA under the standard budgets, the multiplier is kept
as `+∞` (and lands as `+∞` in the allocation's `multiplier` field), and the
raw amount `baseAmount × ∞ = +∞` differs from `baseAmount × 1.0 = 18.75`. -/
theorem C6_counterexample_infinite_multiplier :
    (calculateSingleAllocation ⟨"TSLA", pinf, fin 70⟩ 250 125 300).multiplier = pinf ∧
    jmul (fin (75/4)) pinf = pinf ∧
    pinf ≠ fin (75/4 * 1) := by
  refine ⟨?_, by norm_num [jmul], by simp⟩
  simp [calculateSingleAllocation, JNum.isNaN]

/-- **C6 (amended).** For every asset analysis whose multiplier is `NaN`,
the allocation step behaves exactly as if the multiplier were 1.0 (so
`rawAmount = baseAmount × 1.0`), and the allocation's `multiplier` field is
1.0 — `NaN` is never propagated into the allocation's amount or multiplier
fields.  (An infinite multiplier, by contrast, passes the `isNaN` guard
unchanged.) -/
theorem C6_nan_multiplier_treated_as_one (a : AnalysisForAllocation)
    (bb mn mx : ℚ) (h : a.multiplier.isNaN = true) :
    calculateSingleAllocation a bb mn mx
      = calculateSingleAllocation ⟨a.symbol, fin 1, a.totalCSS⟩ bb mn mx ∧
    (calculateSingleAllocation a bb mn mx).multiplier = fin 1 := by
  cases a with
  | mk symbol mult css =>
    cases mult <;> simp_all [calculateSingleAllocation, JNum.isNaN]

/-- Witness for C6 (amended): a `NaN` multiplier for QQQ under the
standard budgets. -/
theorem C6_nan_multiplier_treated_as_one_witness :
    calculateSingleAllocation ⟨"QQQ", JNum.nan, fin 70⟩ 250 125 300
      = calculateSingleAllocation ⟨"QQQ", fin 1, fin 70⟩ 250 125 300 ∧
    (calculateSingleAllocation ⟨"QQQ", JNum.nan, fin 70⟩ 250 125 300).multiplier
      = fin 1 :=
  C6_nan_multiplier_treated_as_one ⟨"QQQ", JNum.nan, fin 70⟩ 250 125 300 rfl

/-! ### Claim C10 -/

/-- **C10.** A `NaN` composite score silently yields the maximum
multiplier: the `[0,100]` clamp (`Math.max(0, Math.min(100, css))`) does
not remove `NaN`, every row of the CSS→multiplier table fails its `<=`
comparison against `NaN`, and `cssToMultiplier` falls through to the
terminal `BUDGET_CONSTRAINTS.MAX_MULTIPLIER = 1.2` — not an error or a
neutral value. -/
theorem C10_nan_composite_max_multiplier :
    cssClamp JNum.nan = JNum.nan ∧
    CSS_TO_MULTIPLIER.all (fun row => !(jle JNum.nan row.bound)) = true ∧
    cssToMultiplier JNum.nan = BUDGET_CONSTRAINTS.MAX_MULTIPLIER ∧
    cssToMultiplier JNum.nan = 6/5 := by
  refine ⟨rfl, rfl, rfl, ?_⟩
  norm_num [cssToMultiplier, CSS_TO_MULTIPLIER, scanThresholds, jle,
    BUDGET_CONSTRAINTS]

/-! ### Claim C5 -/

/-- **C5 (counterexample).** The claim's formula
`(0.20·vixScore + 0.15·fgScore)/0.35`, a value in `[0,100]`, does not match
the code: `calculateMarketCSS` multiplies that quotient by a further 100.
At volatility 20 (score 40) and sentiment 50 (score 50) the code returns
`31000/7 ≈ 4428.6`, which is neither within `[0,100]` nor equal to the
claimed `(0.20·40 + 0.15·50)/0.35 = 310/7 ≈ 44.3`. -/
theorem C5_counterexample_market_css_scaled :
    calculateMarketCSS (fin 20) (some (fin 50)) = 31000/7 ∧
    ¬ ((31000/7 : ℚ) ≤ 100) ∧
    (31000/7 : ℚ) ≠ (20/100 * 40 + 15/100 * 50) / (35/100) := by
  refine ⟨?_, by norm_num, by norm_num⟩
  norm_num [calculateMarketCSS, calculateVIXScore, calculateFearGreedScore,
    scanThresholds, VIX_SCORE_THRESHOLDS, FEAR_GREED_SCORE_THRESHOLDS, jle,
    CSS_WEIGHTS]

/-- **C5 (amended).** For every volatility index `v` and sentiment value
`f`: the market-wide composite equals the volatility score of `v` alone
(a value in `[0,100]`) when sentiment is unavailable (`null`); when
sentiment is present it equals the weighted average renormalized over the
two weights 0.20 and 0.15 *scaled by a further factor of 100* —
`(0.20·vixScore + 0.15·fgScore)/0.35 × 100` — a value in `[0, 10000]`,
not `[0, 100]`. -/
theorem C5_market_css_formula (v f : JNum) :
    calculateMarketCSS v none = calculateVIXScore v ∧
    calculateMarketCSS v (some f)
      = (calculateVIXScore v * CSS_WEIGHTS.VIX
          + calculateFearGreedScore f * CSS_WEIGHTS.FEAR_GREED)
        / (CSS_WEIGHTS.VIX + CSS_WEIGHTS.FEAR_GREED) * 100 ∧
    0 ≤ calculateMarketCSS v (some f) ∧ calculateMarketCSS v (some f) ≤ 10000 ∧
    0 ≤ calculateMarketCSS v none ∧ calculateMarketCSS v none ≤ 100 := by
  have h1 := vixScore_bounds v
  have h2 := fearGreedScore_bounds f
  refine ⟨rfl, rfl, ?_, ?_, h1.1, h1.2⟩
  · simp only [calculateMarketCSS, CSS_WEIGHTS]
    have h3 : (0:ℚ) ≤ calculateVIXScore v * (20/100)
        + calculateFearGreedScore f * (15/100) := by
      nlinarith [h1.1, h2.1]
    positivity
  · simp only [calculateMarketCSS, CSS_WEIGHTS]
    rw [div_mul_eq_mul_div, div_le_iff₀ (by norm_num)]
    nlinarith [h1.2, h2.2]

/-! ### Claim C7 -/

/-- `jadd` is right-commutative, so list sums of JS numbers are invariant
under permutation (in particular under the final sort). -/
lemma jadd_right_comm (z x y : JNum) : jadd (jadd z x) y = jadd (jadd z y) x := by
  cases z <;> cases x <;> cases y <;> simp [jadd, add_right_comm]

/-- **C7.** A failed per-asset pipeline (a `none` outcome anywhere in the
list) is dropped from the allocation list entirely: the report is *equal*
to the report computed without that asset, so the other assets' allocations
are exactly what they would be without it and the run is not aborted;
moreover the allocation list has one entry per surviving asset (no
zero-amount placeholder), and the report's `totalAmount` equals the sum of
the surviving assets' final amounts. -/
theorem C7_failed_asset_dropped_totals_preserved
    (xs ys : List (Option AnalysisForAllocation)) (bb mn mx : ℚ) :
    generateAllocationReport (xs ++ none :: ys) bb mn mx
      = generateAllocationReport (xs ++ ys) bb mn mx ∧
    (generateAllocationReport (xs ++ ys) bb mn mx).allocations.length
      = (analyzeStocks (xs ++ ys)).length ∧
    (generateAllocationReport (xs ++ ys) bb mn mx).totalAmount
      = ((analyzeStocks (xs ++ ys)).map
          (fun a => (calculateSingleAllocation a bb mn mx).amount)).foldl jadd (fin 0) := by
  have hdrop : analyzeStocks (xs ++ none :: ys) = analyzeStocks (xs ++ ys) := by
    simp [analyzeStocks]
  refine ⟨?_, ?_, ?_⟩
  · unfold generateAllocationReport
    rw [hdrop]
  · simp [generateAllocationReport, calculateAllocations, List.length_mergeSort]
  · simp only [generateAllocationReport, calculateAllocations]
    have hperm : List.Perm
        (((analyzeStocks (xs ++ ys)).map
          (fun a => calculateSingleAllocation a bb mn mx)).mergeSort amountGe)
        ((analyzeStocks (xs ++ ys)).map
          (fun a => calculateSingleAllocation a bb mn mx)) :=
      List.mergeSort_perm _ _
    rw [hperm.foldl_eq' (fun x _ y _ z => jadd_right_comm z x.amount y.amount) (fin 0)]
    rw [List.foldl_map, List.foldl_map]

/-! ### Claim C8 -/

open FearGreedService MarketDataService in
/-- **C8 (counterexample).** The sentiment fetch does not return
`value = null` on failure: on an errored/timed-out call it returns the
neutral numeric placeholder `value = 50` (with `success = false` and
rating `"Unknown"`), and `some 50 ≠ none`. -/
theorem C8_counterexample_failure_value_is_fifty :
    (fetchFearGreedIndex (Except.error ())).value = some 50 ∧
    (fetchFearGreedIndex (Except.error ())).success = false ∧
    some (50 : ℚ) ≠ (none : Option ℚ) := by
  refine ⟨rfl, rfl, by simp⟩

open FearGreedService in
/-- **C8 (amended).** The sentiment fetch never raises to its caller (it is
total over every fetch outcome), and for every failure outcome — the call
errors/times out, or no known response shape matches (`parseResponse`
returns `none`) — it returns `success = false` with the neutral numeric
placeholder `value = 50` and rating `"Unknown"`; the *caller* derives
`null` from the `success` flag
(`fearGreedResponse.success ? fearGreedResponse.value : null`). -/
theorem C8_failure_returns_neutral_record (o : Except Unit CNNData) (d : CNNData) :
    ((fetchFearGreedIndex o).success = false →
      fetchFearGreedIndex o
        = { value := some 50, rating := "Unknown", success := false } ∧
      fearGreedIndexOfResponse (fetchFearGreedIndex o) = none) ∧
    (fetchFearGreedIndex (Except.error ())).success = false ∧
    (parseResponse d = none →
      (fetchFearGreedIndex (Except.ok d)).success = false) := by
  refine ⟨?_, rfl, ?_⟩
  · intro h
    cases o with
    | error e => exact ⟨rfl, rfl⟩
    | ok data =>
      cases hp : parseResponse data with
      | none => simp [fetchFearGreedIndex, hp, fearGreedIndexOfResponse]
      | some vr => simp [fetchFearGreedIndex, hp] at h
  · intro hp
    simp [fetchFearGreedIndex, hp]

open FearGreedService in
/-- Witness for C8 (amended): the errored call and the unparseable payload
both yield the neutral `success = false` record, which the caller maps to
`null`. -/
theorem C8_failure_returns_neutral_record_witness :
    fetchFearGreedIndex (Except.error ())
      = { value := some 50, rating := "Unknown", success := false } ∧
    fearGreedIndexOfResponse (fetchFearGreedIndex (Except.error ())) = none ∧
    (fetchFearGreedIndex (Except.ok CNNData.unknown)).success = false :=
  ⟨((C8_failure_returns_neutral_record (Except.error ()) CNNData.unknown).1 rfl).1,
   ((C8_failure_returns_neutral_record (Except.error ()) CNNData.unknown).1 rfl).2,
   (C8_failure_returns_neutral_record (Except.error ()) CNNData.unknown).2.2 rfl⟩

/-! ### Claim C9 -/

open MarketDataService in
/-- **C9 (counterexample).** The synthetic historical series is *not*
seeded by the symbol: `getSimulatedHistoricalData` does not even take the
symbol as input and multiplies by fresh unseeded `Math.random()` draws, so
two calls (for the same symbol) with different draw streams return
different series — all-zero draws give `[97]`, all-`1/2` draws give
`[300]`. -/
theorem C9_counterexample_series_not_symbol_deterministic :
    getSimulatedHistoricalData 1 (fun _ => 0) = [97] ∧
    getSimulatedHistoricalData 1 (fun _ => 1/2) = [300] ∧
    ([97] : List ℚ) ≠ [300] := by
  refine ⟨?_, ?_, by norm_num⟩ <;>
    norm_num [getSimulatedHistoricalData, simulatedHistoricalLoop]

open MarketDataService in
/-- **C9 (amended).** The synthesized *quote* is deterministic in the
symbol: all numeric fields of `getSimulatedData` are functions of the seed
`hashSymbol(symbol)`, so two calls of that tier for symbols with the same
hash (in particular, the same symbol) return the same quote fields.  The
historical *series*, by contrast, is generated from unseeded
`Math.random()` draws and is not a function of the symbol (see the
counterexample). -/
theorem C9_quote_seeded_by_symbol_hash (s1 s2 : List ℤ)
    (h : hashSymbol s1 = hashSymbol s2) :
    getSimulatedData s1 = getSimulatedData s2 := by
  unfold getSimulatedData
  rw [h]

open MarketDataService in
/-- Witness for C9 (amended) at the char codes of `"QQQ"`. -/
theorem C9_quote_seeded_by_symbol_hash_witness :
    getSimulatedData [81, 81, 81] = getSimulatedData [81, 81, 81] :=
  C9_quote_seeded_by_symbol_hash [81, 81, 81] [81, 81, 81] rfl
